import Mathlib

/-
Verification of the KnowHOWREPR representation
(src/src/metamodel/reprs/KnowHOWREPR.c).

The embedding models the Parrot PMC heap as a list of cells indexed by
natural-number references.  A nullable PMC reference (`PMC *`, where
`PMC_IS_NULL` may hold) is `Option PMCRef`; a reference that the code
dereferences is a bare `PMCRef` looked up in the heap.  Allocation
(`mem_allocate_zeroed_typed`, `pmc_new`) appends a cell to the heap and
returns its index, so `mem_allocate_zeroed_typed(KnowHOWREPRInstance)`
yields a KnowHOW record with all three PMC fields null.  Operations that
throw via `Parrot_ex_throw_from_c_args(.., EXCEPTION_INVALID_OPERATION, ..)`
return `Except REPRError _` with the `UnsupportedOperation` error carrying
the exact message string of the C call; since the C throws before touching
any state, these operations return the heap unchanged.  `gc_mark` is
modelled as returning the list of references passed to
`Parrot_gc_mark_PMC_alive` (the tracer), in call order.
-/

namespace KnowHOWREPR

/-- A reference to a PMC cell in the heap (an index). -/
abbrev PMCRef := Nat

/-- The heap cells the KnowHOW representation manipulates:
its own `KnowHOWREPRInstance` records (fields `common.stable`, `methods`,
`attributes`, each a nullable PMC), STables (fields set by `create_stable`
and `type_object_for`: the representation, the type object `WHAT`, the
meta-object `HOW`), and the two Parrot container kinds `instance_of`
allocates (`enum_class_Hash`, `enum_class_ResizablePMCArray`). -/
inductive PMCData where
  | knowhowObj (stable methods attributes : Option PMCRef)
  | stable (reprRef : PMCRef) (WHAT : Option PMCRef) (HOW : PMCRef)
  | hash (entries : List (String × PMCRef))
  | array (elems : List PMCRef)
deriving Repr, DecidableEq

/-- The PMC heap: a list of cells, referenced by index. -/
structure Heap where
  pmcs : List PMCData
deriving Repr, DecidableEq

/-- Replace the cell at index `i` by `f` of its old value (no-op out of range). -/
def modifyAt (f : PMCData → PMCData) : Nat → List PMCData → List PMCData
  | _, [] => []
  | 0, d :: ds => f d :: ds
  | n + 1, d :: ds => d :: modifyAt f n ds

/-- In-place field update of the cell a reference points at. -/
def Heap.modify (h : Heap) (i : PMCRef) (f : PMCData → PMCData) : Heap :=
  ⟨modifyAt f i h.pmcs⟩

/-- Allocation: append a cell, return its reference and the new heap. -/
def Heap.alloc (h : Heap) (d : PMCData) : PMCRef × Heap :=
  (h.pmcs.length, ⟨h.pmcs ++ [d]⟩)

/-- `PMC_IS_NULL` on a nullable PMC reference. -/
def PMC_IS_NULL (p : Option PMCRef) : Bool :=
  p.isNone

/-- The `STABLE_PMC(o)` macro: reads `o->common.stable` through the
`RakudoObjectCommonalities` cast of `PMC_data(o)`.  Returns `none` when the
reference does not point at a record carrying the commonalities header
(undefined behaviour in C). -/
def STABLE_PMC (h : Heap) (p : PMCRef) : Option (Option PMCRef) :=
  match h.pmcs[p]? with
  | some (.knowhowObj s _ _) => some s
  | _ => none

/-- Assignment `obj->common.stable = x` on a KnowHOW record. -/
def setStableField (s : Option PMCRef) : PMCData → PMCData
  | .knowhowObj _ m a => .knowhowObj s m a
  | d => d

/-- Assignment `obj->methods = x` on a KnowHOW record. -/
def setMethodsField (m : Option PMCRef) : PMCData → PMCData
  | .knowhowObj s _ a => .knowhowObj s m a
  | d => d

/-- Assignment `obj->attributes = x` on a KnowHOW record. -/
def setAttributesField (a : Option PMCRef) : PMCData → PMCData
  | .knowhowObj s m _ => .knowhowObj s m a
  | d => d

/-- Assignment `st->WHAT = x` on an STable. -/
def setWHATField (w : Option PMCRef) : PMCData → PMCData
  | .stable r _ how => .stable r w how
  | d => d

/-- Modelled from the spec: `create_stable` (declared in rakudoobject.h;
its implementation is not under src/) creates a new STable linking the
given representation and meta-object.  Its type-object field (`WHAT`) is
not yet set — the caller `type_object_for` fills it in before returning. -/
def create_stable (h : Heap) (self HOW : PMCRef) : PMCRef × Heap :=
  h.alloc (.stable self none HOW)

/-- Modelled from the spec: `wrap_object` (not under src/) wraps an
instance record as a PMC.  In this embedding instance records already live
in the PMC heap, so wrapping is the identity on references. -/
def wrap_object (r : PMCRef) : PMCRef :=
  r

/-- Modelled from the spec: `NO_HINT` (defined in rakudoobject.h, not
under src/) is the sentinel meaning "no hint available". -/
def NO_HINT : Int :=
  -1

/-- The single error kind of this layer: `Parrot_ex_throw_from_c_args`
with `EXCEPTION_INVALID_OPERATION` and the given message. -/
inductive REPRError where
  | UnsupportedOperation (msg : String)
deriving Repr, DecidableEq

/-- `type_object_for`: allocates a zeroed KnowHOW record, builds an STable
via `create_stable(interp, self, HOW)`, points `st->WHAT` at the wrapped
object and `obj->common.stable` back at the STable PMC, and returns the
type object (`st->WHAT`, i.e. the wrapped object). -/
def type_object_for (h : Heap) (self HOW : PMCRef) : PMCRef × Heap :=
  let alloc1 := h.alloc (.knowhowObj none none none)
  let objRef := alloc1.1
  let h1 := alloc1.2
  let cs := create_stable h1 self HOW
  let st_pmc := cs.1
  let h2 := cs.2
  let h3 := h2.modify st_pmc (setWHATField (some (wrap_object objRef)))
  let h4 := h3.modify objRef (setStableField (some st_pmc))
  (wrap_object objRef, h4)

/-- `instance_of`: allocates a zeroed KnowHOW record, copies
`STABLE_PMC(WHAT)` into `obj->common.stable`, allocates a fresh Hash for
`obj->methods` and a fresh ResizablePMCArray for `obj->attributes`, and
returns the wrapped object.  `none` models the undefined behaviour of the
`STABLE_PMC` cast when `WHAT` carries no commonalities header. -/
def instance_of (h : Heap) (WHAT : PMCRef) : Option (PMCRef × Heap) :=
  match STABLE_PMC h WHAT with
  | none => none
  | some s =>
    let alloc1 := h.alloc (.knowhowObj none none none)
    let objRef := alloc1.1
    let h1 := alloc1.2
    let h2 := h1.modify objRef (setStableField s)
    let allocM := h2.alloc (.hash [])
    let methRef := allocM.1
    let h3 := allocM.2
    let h4 := h3.modify objRef (setMethodsField (some methRef))
    let allocA := h4.alloc (.array [])
    let attrRef := allocA.1
    let h5 := allocA.2
    let h6 := h5.modify objRef (setAttributesField (some attrRef))
    some (wrap_object objRef, h6)

/-- `defined`: `!PMC_IS_NULL(((KnowHOWREPRInstance *)PMC_data(obj))->methods)`.
`none` models the undefined cast on a non-KnowHOW cell. -/
def defined (h : Heap) (obj : PMCRef) : Option Bool :=
  match h.pmcs[obj]? with
  | some (.knowhowObj _ m _) => some (!PMC_IS_NULL m)
  | _ => none

/-- `get_attribute`: throws unconditionally before touching any state. -/
def get_attribute (h : Heap) (obj class_handle : PMCRef) (name : String) :
    Heap × Except REPRError PMCRef :=
  (h, .error (.UnsupportedOperation "KnowHOWREPR does not support attribute storage"))

/-- `get_attribute_with_hint`: throws unconditionally before touching any state. -/
def get_attribute_with_hint (h : Heap) (obj class_handle : PMCRef) (name : String)
    (hint : Int) : Heap × Except REPRError PMCRef :=
  (h, .error (.UnsupportedOperation "KnowHOWREPR does not support attribute storage"))

/-- `bind_attribute`: throws unconditionally before touching any state. -/
def bind_attribute (h : Heap) (obj class_handle : PMCRef) (name : String)
    (value : PMCRef) : Heap × Except REPRError Unit :=
  (h, .error (.UnsupportedOperation "KnowHOWREPR does not support attribute storage"))

/-- `bind_attribute_with_hint`: throws unconditionally before touching any state. -/
def bind_attribute_with_hint (h : Heap) (obj class_handle : PMCRef) (name : String)
    (hint : Int) (value : PMCRef) : Heap × Except REPRError Unit :=
  (h, .error (.UnsupportedOperation "KnowHOWREPR does not support attribute storage"))

/-- `hint_for`: returns `NO_HINT` for every class handle and name. -/
def hint_for (class_handle : PMCRef) (name : String) : Int :=
  NO_HINT

/-- `set_int`: throws unconditionally. -/
def set_int (h : Heap) (obj : PMCRef) (value : Int) : Heap × Except REPRError Unit :=
  (h, .error (.UnsupportedOperation "KnowHOWREPR cannot box a native int"))

/-- `get_int`: throws unconditionally. -/
def get_int (h : Heap) (obj : PMCRef) : Heap × Except REPRError Int :=
  (h, .error (.UnsupportedOperation "KnowHOWREPR cannot unbox to a native int"))

/-- `set_num`: throws unconditionally. -/
def set_num (h : Heap) (obj : PMCRef) (value : Float) : Heap × Except REPRError Unit :=
  (h, .error (.UnsupportedOperation "KnowHOWREPR cannot box a native num"))

/-- `get_num`: throws unconditionally. -/
def get_num (h : Heap) (obj : PMCRef) : Heap × Except REPRError Float :=
  (h, .error (.UnsupportedOperation "KnowHOWREPR cannot unbox to a native num"))

/-- `set_str`: throws unconditionally. -/
def set_str (h : Heap) (obj : PMCRef) (value : String) : Heap × Except REPRError Unit :=
  (h, .error (.UnsupportedOperation "KnowHOWREPR cannot box a native string"))

/-- `get_str`: throws unconditionally. -/
def get_str (h : Heap) (obj : PMCRef) : Heap × Except REPRError String :=
  (h, .error (.UnsupportedOperation "KnowHOWREPR cannot unbox to a native string"))

/-- One `if (!PMC_IS_NULL(x)) Parrot_gc_mark_PMC_alive(interp, x);` step of
`gc_mark`: the (sub)list of tracer invocations it performs. -/
def markIfLive (p : Option PMCRef) : List PMCRef :=
  if PMC_IS_NULL p then [] else p.toList

/-- `gc_mark`: marks `instance->common.stable`, `instance->methods`,
`instance->attributes`, in that order, each guarded by `!PMC_IS_NULL`.
The result is the sequence of references handed to the tracer;
`none` models the undefined cast on a non-KnowHOW cell. -/
def gc_mark (h : Heap) (obj : PMCRef) : Option (List PMCRef) :=
  match h.pmcs[obj]? with
  | some (.knowhowObj s m a) => some (markIfLive s ++ markIfLive m ++ markIfLive a)
  | _ => none

/-! Helper lemmas about heap lookup and in-place update. -/

theorem getAt_append_len {α : Type} (l : List α) (a : α) (t : List α) :
    (l ++ a :: t)[l.length]? = some a := by
  induction l with
  | nil => simp
  | cons x xs ih => simpa using ih

theorem getAt_append_len1 {α : Type} (l : List α) (a b : α) (t : List α) :
    (l ++ a :: b :: t)[l.length + 1]? = some b := by
  have := getAt_append_len (l ++ [a]) b t
  simpa using this

theorem getAt_append_len2 {α : Type} (l : List α) (a b c : α) (t : List α) :
    (l ++ a :: b :: c :: t)[l.length + 2]? = some c := by
  have := getAt_append_len (l ++ [a, b]) c t
  simpa using this

theorem getAt_append_lt {α : Type} (l t : List α) (n : Nat) (hn : n < l.length) :
    (l ++ t)[n]? = l[n]? := by
  induction l generalizing n with
  | nil => simp at hn
  | cons x xs ih =>
    cases n with
    | zero => simp
    | succ k => simpa using ih k (by simpa using hn)

theorem modifyAt_append_len (f : PMCData → PMCData) (l : List PMCData)
    (a : PMCData) (t : List PMCData) :
    modifyAt f l.length (l ++ a :: t) = l ++ f a :: t := by
  induction l with
  | nil => rfl
  | cons x xs ih => simp [modifyAt, ih]

theorem modifyAt_append_len1 (f : PMCData → PMCData) (l : List PMCData)
    (a b : PMCData) (t : List PMCData) :
    modifyAt f (l.length + 1) (l ++ a :: b :: t) = l ++ a :: f b :: t := by
  have := modifyAt_append_len f (l ++ [a]) b t
  simpa using this

/-- Characterization of `type_object_for`: it extends the heap with exactly
two cells — the KnowHOW record at index `|h|` (methods and attributes still
null, stable pointing at the new STable) and the STable at index `|h| + 1`
(representation `self`, `WHAT` pointing back at the record, meta-object
`HOW`) — and returns the record\'s reference. -/
theorem type_object_for_eq (h : Heap) (self HOW : PMCRef) :
    type_object_for h self HOW =
      (h.pmcs.length,
       ⟨h.pmcs ++ [.knowhowObj (some (h.pmcs.length + 1)) none none,
                   .stable self (some h.pmcs.length) HOW]⟩) := by
  simp [type_object_for, create_stable, Heap.alloc, Heap.modify, wrap_object,
        modifyAt_append_len, modifyAt_append_len1, setWHATField, setStableField]

/-- Characterization of `instance_of` on a reference whose cell carries a
commonalities header with stable field `s`: it extends the heap with exactly
three cells — the new KnowHOW record at index `|h|` with stable `s`, the
empty methods Hash at `|h| + 1`, the empty attributes array at `|h| + 2` —
and returns the record\'s reference. -/
theorem instance_of_eq (h : Heap) (WHAT : PMCRef) (s : Option PMCRef)
    (hs : STABLE_PMC h WHAT = some s) :
    instance_of h WHAT =
      some (h.pmcs.length,
        ⟨h.pmcs ++ [.knowhowObj s (some (h.pmcs.length + 1)) (some (h.pmcs.length + 2)),
                    .hash [], .array []]⟩) := by
  simp [instance_of, hs, Heap.alloc, Heap.modify, wrap_object,
        modifyAt_append_len, setStableField, setMethodsField, setAttributesField]

/-- Everything `instance_of` guarantees on a cell carrying a commonalities
header: success, the returned reference is fresh (the old heap end), the
instance is defined, its record holds the copied stable reference, a fresh
empty Hash and a fresh empty array, and the old cells are untouched. -/
theorem instance_of_spec (h : Heap) (WHAT : PMCRef) (s : Option PMCRef)
    (hs : STABLE_PMC h WHAT = some s) :
    ∃ h2,
      instance_of h WHAT = some (h.pmcs.length, h2) ∧
      defined h2 h.pmcs.length = some true ∧
      h2.pmcs[h.pmcs.length]? =
        some (.knowhowObj s (some (h.pmcs.length + 1)) (some (h.pmcs.length + 2))) ∧
      h2.pmcs[h.pmcs.length + 1]? = some (.hash []) ∧
      h2.pmcs[h.pmcs.length + 2]? = some (.array []) ∧
      STABLE_PMC h2 h.pmcs.length = some s ∧
      (∀ n, n < h.pmcs.length → h2.pmcs[n]? = h.pmcs[n]?) ∧
      h2.pmcs.length = h.pmcs.length + 3 := by
  refine ⟨_, instance_of_eq h WHAT s hs, ?_, ?_, ?_, ?_, ?_, ?_, ?_⟩
  · simp only [defined]
    rw [getAt_append_len]
    simp [PMC_IS_NULL]
  · exact getAt_append_len h.pmcs _ _
  · exact getAt_append_len1 h.pmcs _ _ _
  · exact getAt_append_len2 h.pmcs _ _ _ _
  · simp only [STABLE_PMC]
    rw [getAt_append_len]
  · exact fun n hn => getAt_append_lt h.pmcs _ n hn
  · simp

/-- Claim C1: for every KnowHOW object whose STable reference, method
mapping and attribute sequence are given, `gc_mark` hands the tracer
exactly the non-null ones of the three, once each, in the order STable
reference, method mapping, attribute sequence, and nothing else: the trace
is exactly the concatenation of the three null-guarded singleton marks. -/
theorem C1_gc_mark_trace (h : Heap) (obj : PMCRef) (s m a : Option PMCRef)
    (hobj : h.pmcs[obj]? = some (.knowhowObj s m a)) :
    gc_mark h obj = some (markIfLive s ++ markIfLive m ++ markIfLive a) := by
  simp only [gc_mark, hobj]

theorem C1_gc_mark_trace_witness :
    gc_mark ⟨[.stable 9 (some 1) 9, .knowhowObj (some 0) (some 2) (some 3),
              .hash [], .array []]⟩ 1 = some [0, 2, 3] :=
  C1_gc_mark_trace _ 1 (some 0) (some 2) (some 3) rfl

/-- Claim C2: every one of the four attribute operations throws
`UnsupportedOperation` on every object, class handle, name and hint,
whatever the heap (i.e. the object's prior state), and returns the heap —
hence the object's method mapping and attribute sequence — unchanged. -/
theorem C2_attribute_ops_unsupported (h : Heap) (obj class_handle : PMCRef)
    (name : String) (hint : Int) (value : PMCRef) :
    get_attribute h obj class_handle name =
      (h, .error (.UnsupportedOperation "KnowHOWREPR does not support attribute storage")) ∧
    get_attribute_with_hint h obj class_handle name hint =
      (h, .error (.UnsupportedOperation "KnowHOWREPR does not support attribute storage")) ∧
    bind_attribute h obj class_handle name value =
      (h, .error (.UnsupportedOperation "KnowHOWREPR does not support attribute storage")) ∧
    bind_attribute_with_hint h obj class_handle name hint value =
      (h, .error (.UnsupportedOperation "KnowHOWREPR does not support attribute storage")) ∧
    (bind_attribute h obj class_handle name value).1.pmcs[obj]? = h.pmcs[obj]? :=
  ⟨rfl, rfl, rfl, rfl, rfl⟩

/-- Claim C3: a type object returned by `type_object_for` is not defined:
its method mapping is null at creation, so `defined` yields `false`. -/
theorem C3_type_object_not_defined (h : Heap) (self HOW T : PMCRef) (hp : Heap)
    (hT : type_object_for h self HOW = (T, hp)) :
    defined hp T = some false := by
  rw [type_object_for_eq] at hT
  injection hT with e1 e2
  subst e1
  subst e2
  simp only [defined]
  rw [getAt_append_len]
  simp [PMC_IS_NULL]

theorem C3_type_object_not_defined_witness :
    defined ⟨[.knowhowObj (some 1) none none, .stable 0 (some 0) 0]⟩ 0 = some false :=
  C3_type_object_not_defined ⟨[]⟩ 0 0 0
    ⟨[.knowhowObj (some 1) none none, .stable 0 (some 0) 0]⟩ rfl

/-- Claim C4: `instance_of` on a type object freshly produced by
`type_object_for` yields a defined instance whose method mapping is a
freshly allocated empty Hash and whose attribute sequence is a freshly
allocated empty array (both references lie at or beyond the prior heap
end, so they are shared with nothing older). -/
theorem C4_instance_of_defined_fresh (h : Heap) (self HOW T : PMCRef) (hp : Heap)
    (hT : type_object_for h self HOW = (T, hp)) :
    ∃ I h2 mref aref st,
      instance_of hp T = some (I, h2) ∧
      defined h2 I = some true ∧
      h2.pmcs[I]? = some (.knowhowObj st (some mref) (some aref)) ∧
      h2.pmcs[mref]? = some (.hash []) ∧
      h2.pmcs[aref]? = some (.array []) ∧
      hp.pmcs.length ≤ mref ∧
      hp.pmcs.length ≤ aref := by
  rw [type_object_for_eq] at hT
  injection hT with e1 e2
  subst e1
  subst e2
  have hst : STABLE_PMC
      ⟨h.pmcs ++ [.knowhowObj (some (h.pmcs.length + 1)) none none,
                  .stable self (some h.pmcs.length) HOW]⟩
      h.pmcs.length = some (some (h.pmcs.length + 1)) := by
    simp only [STABLE_PMC]
    rw [getAt_append_len]
  obtain ⟨h2, hi, hdef, hrec, hhash, harr, hstb, hold, hlen⟩ :=
    instance_of_spec _ _ _ hst
  exact ⟨_, h2, _, _, _, hi, hdef, hrec, hhash, harr, by simp, by simp⟩

theorem C4_instance_of_defined_fresh_witness :
    ∃ I h2 mref aref st,
      instance_of ⟨[.knowhowObj (some 1) none none, .stable 0 (some 0) 0]⟩ 0 =
        some (I, h2) ∧
      defined h2 I = some true ∧
      h2.pmcs[I]? = some (.knowhowObj st (some mref) (some aref)) ∧
      h2.pmcs[mref]? = some (.hash []) ∧
      h2.pmcs[aref]? = some (.array []) ∧
      2 ≤ mref ∧ 2 ≤ aref :=
  C4_instance_of_defined_fresh ⟨[]⟩ 0 0 0
    ⟨[.knowhowObj (some 1) none none, .stable 0 (some 0) 0]⟩ rfl

/-- Claim C5: the instance returned by `instance_of` on a type object
produced by `type_object_for` shares that type object's STable: both
records hold the same (non-null) STable reference. -/
theorem C5_instance_shares_stable (h : Heap) (self HOW T : PMCRef) (hp : Heap)
    (hT : type_object_for h self HOW = (T, hp)) :
    ∃ I h2 st,
      instance_of hp T = some (I, h2) ∧
      STABLE_PMC h2 I = some (some st) ∧
      STABLE_PMC h2 T = some (some st) := by
  rw [type_object_for_eq] at hT
  injection hT with e1 e2
  subst e1
  subst e2
  have hst : STABLE_PMC
      ⟨h.pmcs ++ [.knowhowObj (some (h.pmcs.length + 1)) none none,
                  .stable self (some h.pmcs.length) HOW]⟩
      h.pmcs.length = some (some (h.pmcs.length + 1)) := by
    simp only [STABLE_PMC]
    rw [getAt_append_len]
  obtain ⟨h2, hi, hdef, hrec, hhash, harr, hstb, hold, hlen⟩ :=
    instance_of_spec _ _ _ hst
  refine ⟨_, h2, h.pmcs.length + 1, hi, hstb, ?_⟩
  simp only [STABLE_PMC]
  rw [hold h.pmcs.length (by simp)]
  rw [getAt_append_len]

theorem C5_instance_shares_stable_witness :
    ∃ I h2 st,
      instance_of ⟨[.knowhowObj (some 1) none none, .stable 0 (some 0) 0]⟩ 0 =
        some (I, h2) ∧
      STABLE_PMC h2 I = some (some st) ∧
      STABLE_PMC h2 0 = some (some st) :=
  C5_instance_shares_stable ⟨[]⟩ 0 0 0
    ⟨[.knowhowObj (some 1) none none, .stable 0 (some 0) 0]⟩ rfl

/-- Claim C6: all six boxing/unboxing operations throw
`UnsupportedOperation` on every object and every primitive value,
whatever the heap, and leave the heap unchanged. -/
theorem C6_boxing_unsupported (h : Heap) (obj : PMCRef) (i : Int) (f : Float)
    (s : String) :
    set_int h obj i =
      (h, .error (.UnsupportedOperation "KnowHOWREPR cannot box a native int")) ∧
    get_int h obj =
      (h, .error (.UnsupportedOperation "KnowHOWREPR cannot unbox to a native int")) ∧
    set_num h obj f =
      (h, .error (.UnsupportedOperation "KnowHOWREPR cannot box a native num")) ∧
    get_num h obj =
      (h, .error (.UnsupportedOperation "KnowHOWREPR cannot unbox to a native num")) ∧
    set_str h obj s =
      (h, .error (.UnsupportedOperation "KnowHOWREPR cannot box a native string")) ∧
    get_str h obj =
      (h, .error (.UnsupportedOperation "KnowHOWREPR cannot unbox to a native string")) :=
  ⟨rfl, rfl, rfl, rfl, rfl, rfl⟩

/-- Claim C7: the type object returned by `type_object_for(self, HOW)`
holds a non-null back-reference to its freshly created STable, and that
STable's type-object field points back at the type object itself, its
representation field is `self` (the KnowHOW representation) and its
meta-object field is `HOW` — all already in place in the returned heap. -/
theorem C7_stable_links (h : Heap) (self HOW T : PMCRef) (hp : Heap)
    (hT : type_object_for h self HOW = (T, hp)) :
    ∃ st,
      hp.pmcs[T]? = some (.knowhowObj (some st) none none) ∧
      hp.pmcs[st]? = some (.stable self (some T) HOW) := by
  rw [type_object_for_eq] at hT
  injection hT with e1 e2
  subst e1
  subst e2
  exact ⟨h.pmcs.length + 1, getAt_append_len _ _ _, getAt_append_len1 _ _ _ _⟩

theorem C7_stable_links_witness :
    ∃ st,
      (⟨[.knowhowObj (some 1) none none, .stable 0 (some 0) 0]⟩ : Heap).pmcs[(0 : Nat)]? =
        some (.knowhowObj (some st) none none) ∧
      (⟨[.knowhowObj (some 1) none none, .stable 0 (some 0) 0]⟩ : Heap).pmcs[st]? =
        some (.stable 0 (some 0) 0) :=
  C7_stable_links ⟨[]⟩ 0 0 0
    ⟨[.knowhowObj (some 1) none none, .stable 0 (some 0) 0]⟩ rfl

/-- Claim C8: `hint_for` returns the `NO_HINT` sentinel for every class
handle and attribute name; being a total function of its inputs, it never
fails. -/
theorem C8_hint_for_no_hint (class_handle : PMCRef) (name : String) :
    hint_for class_handle name = NO_HINT :=
  rfl

/-- Claim C9: `instance_of` inspects nothing of its argument beyond the
`common.stable` field: for any reference whose cell carries a
commonalities header — including an already-defined instance, not only an
undefined type object — it succeeds and returns a fresh, defined instance
sharing that cell's STable reference. -/
theorem C9_instance_of_any_stable_carrier (h : Heap) (W : PMCRef)
    (s : Option PMCRef) (hs : STABLE_PMC h W = some s) :
    ∃ I h2,
      instance_of h W = some (I, h2) ∧
      h.pmcs.length ≤ I ∧
      defined h2 I = some true ∧
      STABLE_PMC h2 I = some s := by
  obtain ⟨h2, hi, hdef, hrec, hhash, harr, hstb, hold, hlen⟩ :=
    instance_of_spec h W s hs
  exact ⟨_, h2, hi, Nat.le_refl _, hdef, hstb⟩

theorem C9_instance_of_any_stable_carrier_witness :
    ∃ I h2,
      instance_of ⟨[.stable 7 none 9, .knowhowObj (some 0) (some 2) (some 3),
                    .hash [], .array []]⟩ 1 = some (I, h2) ∧
      4 ≤ I ∧
      defined h2 I = some true ∧
      STABLE_PMC h2 I = some (some 0) :=
  C9_instance_of_any_stable_carrier
    ⟨[.stable 7 none 9, .knowhowObj (some 0) (some 2) (some 3),
      .hash [], .array []]⟩ 1 (some 0) rfl

/-- Claim C10: tracing the type object freshly returned by
`type_object_for` invokes the tracer exactly once, on the STable
reference only — the method mapping and attribute sequence are both null
in the zero-initialized record, so the trace is the singleton list
holding the STable reference. -/
theorem C10_trace_fresh_type_object (h : Heap) (self HOW T : PMCRef) (hp : Heap)
    (hT : type_object_for h self HOW = (T, hp)) :
    ∃ st,
      STABLE_PMC hp T = some (some st) ∧
      gc_mark hp T = some [st] := by
  rw [type_object_for_eq] at hT
  injection hT with e1 e2
  subst e1
  subst e2
  refine ⟨h.pmcs.length + 1, ?_, ?_⟩
  · simp only [STABLE_PMC]
    rw [getAt_append_len]
  · simp only [gc_mark]
    rw [getAt_append_len]
    simp [markIfLive, PMC_IS_NULL]

theorem C10_trace_fresh_type_object_witness :
    ∃ st,
      STABLE_PMC ⟨[.knowhowObj (some 1) none none, .stable 0 (some 0) 0]⟩ 0 =
        some (some st) ∧
      gc_mark ⟨[.knowhowObj (some 1) none none, .stable 0 (some 0) 0]⟩ 0 =
        some [st] :=
  C10_trace_fresh_type_object ⟨[]⟩ 0 0 0
    ⟨[.knowhowObj (some 1) none none, .stable 0 (some 0) 0]⟩ rfl

end KnowHOWREPR
